import Mathlib

/-!
Verification development for the universal-kyc repository.

The embedding covers:
* `src/services/ocr.js` — the Extraction Client (`extractDataFromDocument`)
  and the Comparison Engine (`compareDocumentByType`);
* `src/services/kyc.js` — the status update (`updateKycStatus`) and the
  submission-owner read (`getKycById`);
* `src/validations/…` (file `kycSchema`) — the document-type whitelist.

JavaScript objects holding document fields are embedded as association
lists (`FieldMap`); property lookup returns `Option String`, and a missing
property read in a comparison position becomes `""` (the repository's
sanitizers fill missing fields with empty strings — see the spec-modelled
definitions below).  Thrown `Error`s become `Except String` with the exact
message strings of the source.  The modules `src/utils/stringComparison.js`
and `src/utils/setDoc/*` are not part of the provided sources; they are
modelled from the specification and marked as such.
-/

abbrev FieldName := String

/-- A JavaScript object used as a string-valued field map: an association
list of property name paired with value, in insertion order. -/
abbrev FieldMap := List (FieldName × String)

/-- Property lookup `m[f]`: the first binding of `f`, if any. -/
def lookupField (m : FieldMap) (f : FieldName) : Option String :=
  (m.find? (fun p => p.1 = f)).map (fun p => p.2)

/-- `m[f]` read in a comparison position: a missing property is treated as
the empty string (spec §4.4: missing fields are compared as `""`). -/
def fieldValue (m : FieldMap) (f : FieldName) : String :=
  (lookupField m f).getD ""

/-- `Object.keys m`, in insertion order. -/
def keysOf (m : FieldMap) : List FieldName :=
  m.map (fun p => p.1)

/-- ASCII lower-casing of a character, as JavaScript `toLowerCase` acts on
the ASCII range (document-type strings are ASCII). -/
def lowerChar (c : Char) : Char :=
  if 65 ≤ c.toNat ∧ c.toNat ≤ 90 then Char.ofNat (c.toNat + 32) else c

/-- `s.toLowerCase()` for ASCII strings. -/
def lowerString (s : String) : String :=
  String.mk (s.data.map lowerChar)

/-! ## Fuzzy comparator

Modelled from the spec: `src/utils/stringComparison.js` is not among the
provided sources.  Spec §4.3 requires a noise-tolerant similarity check
against a fixed threshold that is symmetric, matches empty-vs-empty and
rejects empty-vs-nonempty.  We model the similarity as the Sørensen–Dice
coefficient on character bigrams with a fixed threshold. -/

/-- Modelled from the spec: the fixed similarity threshold separating
"close enough" from "different" (§4.3, a configuration constant). -/
def similarityThreshold : ℚ := 4 / 5

/-- The multiset of adjacent character pairs of a string. -/
def bigrams (s : String) : Multiset (Char × Char) :=
  ↑(s.data.zip s.data.tail)

/-- Modelled from the spec: Sørensen–Dice similarity between two strings. -/
def diceCoefficient (a b : String) : ℚ :=
  2 * ((bigrams a ∩ bigrams b).card : ℚ) /
    (((bigrams a).card : ℚ) + ((bigrams b).card : ℚ))

/-- Modelled from the spec: the fuzzy string comparator of
`src/utils/stringComparison.js` (§4.3).  Equal strings match; a string
shorter than a bigram (in particular the empty string) matches nothing but
itself; otherwise the Dice similarity is compared with the threshold. -/
def compareStrings (a b : String) : Bool :=
  if a = b then true
  else if a.length < 2 ∨ b.length < 2 then false
  else similarityThreshold ≤ diceCoefficient a b

/-! ## FieldName sanitizers

Modelled from the spec: the modules `src/utils/setDoc/*` are not among the
provided sources.  Spec §4.2: one pure normalization per document-type
variant, applied to both the OCR map and the submitted map; normalization
trims, case-folds and collapses whitespace; each variant determines a fixed
comparable field set, and a field missing from the raw data is carried as
the empty string (§4.4). -/

/-- Split a character list into maximal space-free words (the accumulator
holds the current word reversed). -/
def splitWords : List Char → List Char → List (List Char)
  | acc, [] => if acc = [] then [] else [acc.reverse]
  | acc, c :: cs =>
    if c = ' ' then
      if acc = [] then splitWords [] cs else acc.reverse :: splitWords [] cs
    else
      splitWords (c :: acc) cs

/-- Rejoin words with single spaces. -/
def joinWords : List (List Char) → List Char
  | [] => []
  | [w] => w
  | w :: ws => w ++ ' ' :: joinWords ws

/-- Modelled from the spec: canonical value normalization (§4.2) — trim,
collapse internal whitespace runs, case-fold. -/
def normalizeValue (s : String) : String :=
  String.mk (joinWords (splitWords [] (s.data.map lowerChar)))

/-- Modelled from the spec: a sanitizer for a fixed comparable field set —
every field of the set is produced, normalized, with a missing raw field
carried as the empty string. -/
def sanitizeFields (fields : List FieldName) (data : FieldMap) : FieldMap :=
  fields.map (fun f => (f, normalizeValue ((lookupField data f).getD "")))

/-- Modelled from the spec: comparable field set of the national-ID card. -/
def aadhaarFields : List FieldName := ["name", "dob", "idNumber", "address"]

/-- Modelled from the spec: comparable field set of the passport. -/
def passportFields : List FieldName :=
  ["name", "dob", "idNumber", "idExpiryDate", "idIssuingCountry"]

/-- Modelled from the spec: comparable field set of the tax-ID card. -/
def panCardFields : List FieldName := ["name", "dob", "idNumber"]

/-- Modelled from the spec: comparable field set of the driving license. -/
def dlFields : List FieldName :=
  ["name", "dob", "idNumber", "address", "idExpiryDate"]

/-- Modelled from the spec: comparable field set of the voter-ID card. -/
def voterIdFields : List FieldName := ["name", "dob", "idNumber", "address"]

/-- A pair of sanitizers for one document-type variant: one for the OCR
map, one for the user-submitted map. -/
structure SanitizerPair where
  sanitizeOcr : FieldMap → FieldMap
  sanitizeKyc : FieldMap → FieldMap

/-- The five registered sanitizer pairs the Comparison Engine imports. -/
structure Sanitizers where
  aadhaar : SanitizerPair
  passport : SanitizerPair
  panCard : SanitizerPair
  dl : SanitizerPair
  voterId : SanitizerPair

/-- Modelled from the spec: a sanitizer pair over one fixed field set (OCR
and form sides use the same comparable granularity after normalization). -/
def mkPair (fields : List FieldName) : SanitizerPair :=
  { sanitizeOcr := sanitizeFields fields, sanitizeKyc := sanitizeFields fields }

/-- Modelled from the spec: the concrete sanitizer modules of
`src/utils/setDoc/*`. -/
def specSanitizers : Sanitizers :=
  { aadhaar := mkPair aadhaarFields
    passport := mkPair passportFields
    panCard := mkPair panCardFields
    dl := mkPair dlFields
    voterId := mkPair voterIdFields }

/-! ## Comparison Engine (`compareDocumentByType`, src/services/ocr.js) -/

/-- One entry of the `comparisonResults` array built by
`compareDocumentByType`. -/
structure FieldComparisonResult where
  field : FieldName
  isMatch : Bool
  ocrValue : String
  kycValue : String
deriving DecidableEq

/-- One entry of the `mismatchResults` object. -/
structure MismatchDetail where
  ocrValue : String
  kycValue : String
  reason : String
deriving DecidableEq

/-- The value returned by `compareDocumentByType`. -/
structure CompareResult where
  isMatch : Bool
  mismatchResults : List (FieldName × MismatchDetail)
deriving DecidableEq

/-- The `reason` string stored for a mismatching field. -/
def mismatchReason (ocrValue kycValue : String) : String :=
  "Mismatch: OCR value (" ++ ocrValue ++ ") does not match KYC value (" ++
    kycValue ++ ")"

/-- The comparison loop of `compareDocumentByType`: one result per key of
the sanitized OCR map, comparing against the sanitized KYC value (missing
KYC entries read as `""`). -/
def comparisonResults (sanitizedOcrData sanitizedKycData : FieldMap) :
    List FieldComparisonResult :=
  (keysOf sanitizedOcrData).map (fun field =>
    { field := field
      isMatch := compareStrings (fieldValue sanitizedOcrData field)
        (fieldValue sanitizedKycData field)
      ocrValue := fieldValue sanitizedOcrData field
      kycValue := fieldValue sanitizedKycData field })

/-- The mismatch-collection loop of `compareDocumentByType`: every
non-matching result contributes one entry carrying both values. -/
def mismatchResultsOf (rs : List FieldComparisonResult) :
    List (FieldName × MismatchDetail) :=
  (rs.filter (fun r => !r.isMatch)).map (fun r =>
    (r.field,
      { ocrValue := r.ocrValue
        kycValue := r.kycValue
        reason := mismatchReason r.ocrValue r.kycValue }))

/-- The body of `compareDocumentByType` after the sanitizer pair has been
selected: sanitize both sides, run the field-by-field comparison, return
`isMatch` (the conjunction of all field results) and the mismatch map. -/
def runPair (P : SanitizerPair) (ocrData kycData : FieldMap) : CompareResult :=
  let sanitizedOcrData := P.sanitizeOcr ocrData
  let sanitizedKycData := P.sanitizeKyc kycData
  let rs := comparisonResults sanitizedOcrData sanitizedKycData
  { isMatch := rs.all (fun r => r.isMatch)
    mismatchResults := mismatchResultsOf rs }

/-- The `switch (documentType.toLowerCase())` dispatch of
`compareDocumentByType`: the sanitizer pair for a document type, or `none`
for the default branch. -/
def selectPair (S : Sanitizers) (documentType : String) : Option SanitizerPair :=
  let dt := lowerString documentType
  if dt = "aadhaar-card" then some S.aadhaar
  else if dt = "passport" then some S.passport
  else if dt = "pan-card" then some S.panCard
  else if dt = "dl" then some S.dl
  else if dt = "voter-id" then some S.voterId
  else none

/-- `compareDocumentByType`, parameterized by the sanitizer modules it
imports (the default branch throws
`Unsupported document type: ${documentType}`). -/
def compareDocumentByTypeWith (S : Sanitizers) (documentType : String)
    (ocrData kycData : FieldMap) : Except String CompareResult :=
  match selectPair S documentType with
  | some P => .ok (runPair P ocrData kycData)
  | none => .error ("Unsupported document type: " ++ documentType)

/-- `compareDocumentByType` of `src/services/ocr.js`, with the concrete
(spec-modelled) sanitizer modules. -/
def compareDocumentByType (documentType : String) (ocrData kycData : FieldMap) :
    Except String CompareResult :=
  compareDocumentByTypeWith specSanitizers documentType ocrData kycData

/-- The five document-type strings registered in the dispatch switch (and,
identically, admitted by `kycSchema`'s `idType` whitelist). -/
def registeredTypes : List String :=
  ["aadhaar-card", "passport", "pan-card", "dl", "voter-id"]

/-- The `idType` whitelist of `kycSchema` (Joi
`.valid("aadhaar-card", "passport", "dl", "voter-id", "pan-card")`):
exact-string membership, no case folding. -/
def kycSchemaAllowsIdType (s : String) : Bool :=
  registeredTypes.contains s

/-! ## Extraction Client (`extractDataFromDocument`, src/services/ocr.js)

The HTTP exchange is embedded as a value describing how the `axios.post`
call resolved: either the promise rejected (network failure or non-2xx
status, both thrown by axios), or it resolved with an optional response
body.  The body mirrors the shape the code inspects: `data.status`,
`data.message`, and the nested `data.data.ocr` section. -/

/-- The nested `data` section of the OCR response body: it may or may not
carry the `ocr` field map. -/
structure OcrPayload where
  ocr : Option FieldMap
deriving DecidableEq

/-- The OCR response body (`response.data` in the code). -/
structure OcrResponseBody where
  status : String
  message : Option String
  data : Option OcrPayload
deriving DecidableEq

/-- How the `axios.post` call resolved. -/
inductive HttpResult where
  /-- The promise rejected: network failure or non-2xx response. -/
  | failure (message : String)
  /-- The promise resolved; the body may still be absent or empty. -/
  | success (body : Option OcrResponseBody)
deriving DecidableEq

/-- `delete extractedData.validState`: remove the validity-metadata key. -/
def removeValidState (m : FieldMap) : FieldMap :=
  m.filter (fun p => p.1 ≠ "validState")

/-- The `try` block of `extractDataFromDocument`: the cause-specific checks
and their distinct internal error messages. -/
def extractDataAttempt (r : HttpResult) : Except String FieldMap :=
  match r with
  | .failure msg => .error msg
  | .success none => .error "Invalid OCR API response"
  | .success (some body) =>
    if body.status ≠ "ok" then
      .error ("OCR API error: " ++ (body.message.getD "Unknown error"))
    else
      match body.data with
      | none => .error "OCR data is missing in API response"
      | some payload =>
        match payload.ocr with
        | none => .error "OCR data is missing in API response"
        | some extractedData => .ok (removeValidState extractedData)

/-- `extractDataFromDocument` of `src/services/ocr.js`: the `try` block
wrapped in the `catch` that logs the original error and rethrows the
generic `Error("OCR extraction failed")`. -/
def extractDataFromDocument (r : HttpResult) : Except String FieldMap :=
  match extractDataAttempt r with
  | .ok extracted => .ok extracted
  | .error _ => .error "OCR extraction failed"

/-! ## KYC service (src/services/kyc.js)

The Mongo collections are embedded as lists of records; `findById` is the
first record with the given `_id`.  User references are embedded already
populated (`userId : Option User` — `None` when the reference did not
resolve).  Date and ObjectId values are embedded as strings. -/

/-- A populated user document (the fields the service selects). -/
structure User where
  firstName : String
  lastName : String
  email : String
  phone : String
deriving DecidableEq

/-- A KYC submission document. -/
structure Kyc where
  _id : String
  userId : Option User
  idType : String
  kycStatus : String
  selfieImage : String
  documentImage : String
  nationality : String
  dob : String
  idNumber : String
  idIssueDate : String
  idExpiryDate : String
  idIssuingCountry : String
  countryOfResidence : String
  addressLine1 : String
  addressLine2 : String
  city : String
  state : String
  zipCode : String
  createdAt : String
  updatedAt : String
deriving DecidableEq

/-- The face-match sub-record of a moderation document. -/
structure FaceMatch where
  «match» : Bool
  matchConfidence : String
deriving DecidableEq

/-- The liveliness sub-record of a moderation document. -/
structure Liveliness where
  passed : Bool
  livelinessDetails : String
  livelinessResults : String
deriving DecidableEq

/-- A moderation document (one per moderated submission). -/
structure Moderation where
  _id : String
  kycId : String
  ocrData : FieldMap
  ocrMatch : Bool
  faceMatch : FaceMatch
  liveliness : Liveliness
  createdAt : String
  updatedAt : String
deriving DecidableEq

/-- The persistent state the KYC service reads: the `Kyc` and `Moderation`
collections. -/
structure Database where
  kycs : List Kyc
  moderations : List Moderation
deriving DecidableEq

/-- The request context the service consumes (only used to build absolute
file URLs). -/
structure Req where
  baseUrl : String
deriving DecidableEq

/-- Modelled from the spec: `buildFileUrl` of `src/utils/buildUrl.js`
(an out-of-scope collaborator producing uploaded-file URLs). -/
def buildFileUrl (req : Req) (path : String) : String :=
  req.baseUrl ++ path

/-- `Kyc.findById`. -/
def findKycById (db : Database) (kycId : String) : Option Kyc :=
  db.kycs.find? (fun k => k._id = kycId)

/-- `Moderation.findOne({ kycId })`. -/
def findModerationByKycId (db : Database) (kycId : String) : Option Moderation :=
  db.moderations.find? (fun m => m.kycId = kycId)

/-- The display name built by the service:
`` `${kyc.userId?.firstName || "N/A"} ${kyc.userId?.lastName || ""}`.trim() ``
(JavaScript `||` treats the empty string as falsy). -/
def displayName (userId : Option User) : String :=
  let firstName := match userId with
    | some u => if u.firstName = "" then "N/A" else u.firstName
    | none => "N/A"
  let lastName := match userId with
    | some u => u.lastName
    | none => ""
  (firstName ++ " " ++ lastName).trim

/-- `kyc.userId?.email || "N/A"`. -/
def displayEmail (userId : Option User) : String :=
  match userId with
  | some u => if u.email = "" then "N/A" else u.email
  | none => "N/A"

/-- The object returned by `getKycById` (its literal field list). -/
structure KycByIdView where
  id : String
  documentType : String
  nationality : String
  dob : String
  idNumber : String
  idIssueDate : String
  idExpiryDate : String
  idIssuingCountry : String
  countryOfResidence : String
  addressLine1 : String
  addressLine2 : String
  city : String
  state : String
  zipCode : String
  name : String
  email : String
  selfieImage : String
  documentImage : String
  kycStatus : String
  createdAt : String
  updatedAt : String
deriving DecidableEq

/-- `getKycById` of `src/services/kyc.js`: fetch the submission without
moderation, return `null` when absent, otherwise the formatted view. -/
def getKycById (db : Database) (kycId : String) (req : Req) :
    Option KycByIdView :=
  match findKycById db kycId with
  | none => none
  | some kyc =>
    some
      { id := kyc._id
        documentType := kyc.idType
        nationality := kyc.nationality
        dob := kyc.dob
        idNumber := kyc.idNumber
        idIssueDate := kyc.idIssueDate
        idExpiryDate := kyc.idExpiryDate
        idIssuingCountry := kyc.idIssuingCountry
        countryOfResidence := kyc.countryOfResidence
        addressLine1 := kyc.addressLine1
        addressLine2 := if kyc.addressLine2 = "" then "N/A" else kyc.addressLine2
        city := kyc.city
        state := kyc.state
        zipCode := kyc.zipCode
        name := displayName kyc.userId
        email := displayEmail kyc.userId
        selfieImage := buildFileUrl req kyc.selfieImage
        documentImage := buildFileUrl req kyc.documentImage
        kycStatus := kyc.kycStatus
        createdAt := kyc.createdAt
        updatedAt := kyc.updatedAt }

/-- The status whitelist of `updateKycStatus`. -/
def validStatuses : List String := ["Pending", "Verified", "Rejected"]

/-- `Kyc.findByIdAndUpdate(kycId, { kycStatus }, { new: true })`: update
the matching document's status and return the updated document (or `none`
when no document matches, leaving the collection unchanged). -/
def findByIdAndUpdateStatus (kycs : List Kyc) (kycId kycStatus : String) :
    List Kyc × Option Kyc :=
  let updated := kycs.map (fun k =>
    if k._id = kycId then { k with kycStatus := kycStatus } else k)
  (updated, updated.find? (fun k => k._id = kycId))

/-- `updateKycStatus` of `src/services/kyc.js`: reject a status outside
the whitelist with `Error("Invalid KYC status provided")`, otherwise
perform the update.  The second component is the state of the `Kyc`
collection after the call. -/
def updateKycStatus (kycs : List Kyc) (kycId kycStatus : String) :
    Except String (Option Kyc) × List Kyc :=
  if (validStatuses.contains kycStatus) = false then
    (.error "Invalid KYC status provided", kycs)
  else
    let r := findByIdAndUpdateStatus kycs kycId kycStatus
    (.ok r.2, r.1)

/-! ## Remaining definitions used by the theorems -/

/-- One entry of the comparison loop, as a function of the field name. -/
def comparisonEntry (sanitizedOcrData sanitizedKycData : FieldMap)
    (f : FieldName) : FieldComparisonResult :=
  { field := f
    isMatch := compareStrings (fieldValue sanitizedOcrData f)
      (fieldValue sanitizedKycData f)
    ocrValue := fieldValue sanitizedOcrData f
    kycValue := fieldValue sanitizedKycData f }

/-- The comparable field set of a registered document type (empty for an
unregistered one). -/
def fieldsFor (documentType : String) : List FieldName :=
  if documentType = "aadhaar-card" then aadhaarFields
  else if documentType = "passport" then passportFields
  else if documentType = "pan-card" then panCardFields
  else if documentType = "dl" then dlFields
  else if documentType = "voter-id" then voterIdFields
  else []

/-- A concrete OCR field map used in the closed instances below. -/
def demoOcrData : FieldMap :=
  [("name", "John Doe"), ("dob", "1990-01-01"), ("idNumber", "P123"),
   ("idExpiryDate", "2025-01-01"), ("idIssuingCountry", "IN")]

/-- A concrete submitted field map used in the closed instances below. -/
def demoKycData : FieldMap :=
  [("name", "john doe"), ("dob", "1990-01-01"), ("idNumber", "Q999"),
   ("idExpiryDate", "2025-01-01"), ("idIssuingCountry", "IN")]

/-- A concrete OCR field map from which the name field is absent. -/
def demoOcrMissingName : FieldMap :=
  [("dob", "1990-01-01"), ("idNumber", "P123"),
   ("idExpiryDate", "2025-01-01"), ("idIssuingCountry", "IN")]

/-- A concrete raw extraction result that carries the `validState`
metadata key. -/
def demoExtracted : FieldMap :=
  [("name", "John"), ("validState", "true"), ("dob", "1990-01-01")]

/-- A concrete KYC submission document used in the closed instances
below. -/
def demoKyc : Kyc :=
  { _id := "k1", userId := none, idType := "passport", kycStatus := "Verified"
    selfieImage := "/s.png", documentImage := "/d.png", nationality := "IN"
    dob := "1990-01-01", idNumber := "P123", idIssueDate := "2015-01-01"
    idExpiryDate := "2025-01-01", idIssuingCountry := "IN"
    countryOfResidence := "IN", addressLine1 := "1 Main St", addressLine2 := ""
    city := "Pune", state := "MH", zipCode := "411001"
    createdAt := "t0", updatedAt := "t1" }

/-! ## Helper lemmas -/

theorem diceCoefficient_comm (a b : String) :
    diceCoefficient a b = diceCoefficient b a := by
  unfold diceCoefficient
  rw [Multiset.inter_comm, add_comm (((bigrams a).card : ℚ))]

theorem comparisonResults_eq_map (so sk : FieldMap) :
    comparisonResults so sk = (keysOf so).map (comparisonEntry so sk) := rfl

theorem lookupField_map_self (v : FieldName → String) (fields : List FieldName)
    (f : FieldName) (hf : f ∈ fields) :
    lookupField (fields.map (fun g => (g, v g))) f = some (v f) := by
  induction fields with
  | nil => cases hf
  | cons g gs ih =>
    by_cases hg : g = f
    · subst hg
      simp [lookupField, List.find?_cons]
    · have hf' : f ∈ gs := by
        rcases List.mem_cons.mp hf with h | h
        · exact absurd h.symm hg
        · exact h
      simpa [lookupField, List.find?_cons, hg] using ih hf'

theorem keysOf_sanitizeFields (fields : List FieldName) (data : FieldMap) :
    keysOf (sanitizeFields fields data) = fields := by
  induction fields with
  | nil => rfl
  | cons g gs ih =>
    simp only [keysOf, sanitizeFields, List.map_cons] at ih ⊢
    rw [ih]

theorem lookupField_sanitizeFields (fields : List FieldName) (data : FieldMap)
    (f : FieldName) (hf : f ∈ fields) :
    lookupField (sanitizeFields fields data) f =
      some (normalizeValue ((lookupField data f).getD "")) :=
  lookupField_map_self _ fields f hf

theorem fieldValue_sanitizeFields (fields : List FieldName) (data : FieldMap)
    (f : FieldName) (hf : f ∈ fields) :
    fieldValue (sanitizeFields fields data) f =
      normalizeValue ((lookupField data f).getD "") := by
  unfold fieldValue
  rw [lookupField_sanitizeFields fields data f hf]
  rfl

theorem normalizeValue_empty : normalizeValue "" = "" := rfl

theorem mem_mismatchResultsOf (so sk : FieldMap) (f : FieldName)
    (m : MismatchDetail) :
    (f, m) ∈ mismatchResultsOf (comparisonResults so sk) ↔
      f ∈ keysOf so ∧
      compareStrings (fieldValue so f) (fieldValue sk f) = false ∧
      m = { ocrValue := fieldValue so f
            kycValue := fieldValue sk f
            reason := mismatchReason (fieldValue so f) (fieldValue sk f) } := by
  unfold mismatchResultsOf
  rw [comparisonResults_eq_map]
  constructor
  · intro hmem
    rcases List.mem_map.mp hmem with ⟨r, hr, hfm⟩
    rcases List.mem_filter.mp hr with ⟨hrmem, hnm⟩
    rcases List.mem_map.mp hrmem with ⟨g, hg, hge⟩
    have hfield : r.field = f := congrArg Prod.fst hfm
    subst hge
    have hgf : g = f := hfield
    subst hgf
    refine ⟨hg, ?_, ?_⟩
    · have : (comparisonEntry so sk g).isMatch = false := by
        have := hnm
        simpa [Bool.not_eq_true'] using this
      simpa [comparisonEntry] using this
    · have := congrArg Prod.snd hfm
      simpa [comparisonEntry] using this.symm
  · rintro ⟨hf, hcmp, rfl⟩
    apply List.mem_map.mpr
    refine ⟨comparisonEntry so sk f, ?_, ?_⟩
    · apply List.mem_filter.mpr
      refine ⟨List.mem_map.mpr ⟨f, hf, rfl⟩, ?_⟩
      simp [comparisonEntry, hcmp]
    · simp [comparisonEntry]

theorem lookupField_removeValidState_ne (m : FieldMap) (f : FieldName)
    (hf : f ≠ "validState") :
    lookupField (removeValidState m) f = lookupField m f := by
  have hvf : ¬ ("validState" = f) := fun h => hf h.symm
  unfold removeValidState
  induction m with
  | nil => rfl
  | cons p rest ih =>
    by_cases hp : p.1 = "validState"
    · have hpf : ¬ (p.1 = f) := by
        rw [hp]; exact hvf
      simp [lookupField, List.filter_cons, hp, List.find?_cons, hpf, hvf, hf]
        at ih ⊢
      exact ih
    · by_cases hpf : p.1 = f
      · simp [lookupField, List.filter_cons, hp, List.find?_cons, hpf, hvf, hf]
      · simp [lookupField, List.filter_cons, hp, List.find?_cons, hpf, hvf, hf]
          at ih ⊢
        exact ih

theorem lookupField_removeValidState_self (m : FieldMap) :
    lookupField (removeValidState m) "validState" = none := by
  unfold lookupField
  rw [List.find?_eq_none.mpr]
  · rfl
  · intro p hp
    have := (List.mem_filter.mp hp).2
    simpa using this

theorem comparisonResults_fields (so sk : FieldMap) :
    (comparisonResults so sk).map (fun r => r.field) = keysOf so := by
  rw [comparisonResults_eq_map, List.map_map]
  simp [Function.comp_def, comparisonEntry]

theorem selectPair_spec (documentType : String)
    (h : documentType ∈ registeredTypes) :
    selectPair specSanitizers documentType =
      some (mkPair (fieldsFor documentType)) := by
  simp only [registeredTypes, List.mem_cons, List.not_mem_nil, or_false] at h
  rcases h with rfl | rfl | rfl | rfl | rfl
  · rfl
  · rfl
  · rfl
  · rfl
  · rfl

/-! ## Claim theorems -/

/-- Claim C1, counterexample: the target status `"Pending"` is outside
{Verified, Rejected}, yet `updateKycStatus` succeeds on it and changes the
stored status — the whitelist of the code is
`["Pending", "Verified", "Rejected"]`, not `{Verified, Rejected}`. -/
theorem updateKycStatus_accepts_pending :
    "Pending" ∉ (["Verified", "Rejected"] : List String) ∧
    (updateKycStatus [demoKyc] "k1" "Pending").1.isOk = true ∧
    (updateKycStatus [demoKyc] "k1" "Pending").2.map (fun k => k.kycStatus) =
      ["Pending"] := by
  refine ⟨by decide, by decide, by decide⟩

/-- Claim C1, amended: for every submission identifier and target status,
`updateKycStatus` succeeds exactly when the target is one of
{Pending, Verified, Rejected}; for any other target it fails with the
invalid-status error and leaves the `Kyc` collection (hence every
submission's status) unchanged. -/
theorem updateKycStatus_whitelist (kycs : List Kyc)
    (kycId kycStatus : String) :
    (kycStatus ∈ validStatuses →
      updateKycStatus kycs kycId kycStatus =
        (.ok (findByIdAndUpdateStatus kycs kycId kycStatus).2,
          (findByIdAndUpdateStatus kycs kycId kycStatus).1)) ∧
    (kycStatus ∉ validStatuses →
      updateKycStatus kycs kycId kycStatus =
        (.error "Invalid KYC status provided", kycs)) := by
  constructor
  · intro hmem
    simp [updateKycStatus, hmem]
  · intro hmem
    simp [updateKycStatus, hmem]

/-- Claim C1, witness for the amended theorem at a concrete input: the
unknown target status `"Approved"` is rejected and the collection is left
unchanged. -/
theorem updateKycStatus_whitelist_witness :
    updateKycStatus [demoKyc] "k1" "Approved" =
      (.error "Invalid KYC status provided", [demoKyc]) :=
  (updateKycStatus_whitelist [demoKyc] "k1" "Approved").2 (by decide)

/-- Claim C2, counterexample: three distinct failure causes — a rejected
request, an absent response body, and a service-reported non-ok status —
all surface to the caller as the identical generic
`Error("OCR extraction failed")`, so the failures are collapsed, not
distinct. -/
theorem extractDataFromDocument_collapses_failures :
    extractDataFromDocument (.failure "Network Error") =
      .error "OCR extraction failed" ∧
    extractDataFromDocument (.success none) =
      .error "OCR extraction failed" ∧
    extractDataFromDocument
        (.success (some { status := "error", message := none, data := none })) =
      .error "OCR extraction failed" :=
  ⟨rfl, rfl, rfl⟩

/-- Claim C2, amended: the `try` block of `extractDataFromDocument` detects
the failure causes with distinct internal error messages, but the `catch`
block rethrows a single generic error, so every failing extraction call
surfaces to the caller as `Error("OCR extraction failed")` regardless of
its cause. -/
theorem extractDataFromDocument_generic_error (r : HttpResult) (e : String)
    (h : extractDataAttempt r = .error e) :
    extractDataFromDocument r = .error "OCR extraction failed" := by
  unfold extractDataFromDocument
  rw [h]

/-- Claim C2, witness for the amended theorem: an absent response body is
detected as `"Invalid OCR API response"` internally and surfaced as the
generic error. -/
theorem extractDataFromDocument_generic_error_witness :
    extractDataFromDocument (.success none) = .error "OCR extraction failed" :=
  extractDataFromDocument_generic_error (.success none)
    "Invalid OCR API response" rfl

/-- Claim C3: for every registered sanitizer assignment, every supported
document type (any type the dispatch resolves) and every pair of field
maps, the `isMatch` of the returned result is the boolean conjunction of
the per-field comparator results over all compared fields; equivalently it
is `true` exactly when every compared field matched, so a single
mismatching field makes it `false`. -/
theorem compareDocumentByType_isMatch_conj (S : Sanitizers)
    (documentType : String) (ocrData kycData : FieldMap) (P : SanitizerPair)
    (h : selectPair S documentType = some P) :
    compareDocumentByTypeWith S documentType ocrData kycData =
      .ok (runPair P ocrData kycData) ∧
    (runPair P ocrData kycData).isMatch =
      (comparisonResults (P.sanitizeOcr ocrData)
        (P.sanitizeKyc kycData)).all (fun r => r.isMatch) ∧
    ((runPair P ocrData kycData).isMatch = true ↔
      ∀ r ∈ comparisonResults (P.sanitizeOcr ocrData) (P.sanitizeKyc kycData),
        r.isMatch = true) := by
  refine ⟨?_, rfl, ?_⟩
  · unfold compareDocumentByTypeWith
    rw [h]
  · show (comparisonResults (P.sanitizeOcr ocrData)
      (P.sanitizeKyc kycData)).all (fun r => r.isMatch) = true ↔ _
    exact List.all_eq_true

/-- Claim C3, witness at a concrete input: the passport dispatch with
concrete maps. -/
theorem compareDocumentByType_isMatch_conj_witness :
    (runPair specSanitizers.passport demoOcrData demoKycData).isMatch = true ↔
      ∀ r ∈ comparisonResults (specSanitizers.passport.sanitizeOcr demoOcrData)
          (specSanitizers.passport.sanitizeKyc demoKycData),
        r.isMatch = true :=
  (compareDocumentByType_isMatch_conj specSanitizers "passport" demoOcrData
    demoKycData specSanitizers.passport rfl).2.2

/-- Claim C4: with the (spec-modelled) sanitizers, every field of the
selected document type's comparable field set is compared even when it is
absent from the raw OCR data: the sanitized OCR map still carries it with
the empty string as its value, the comparison covers exactly the field
set, and the absent field's entry compares `""` against the sanitized
submitted value — no field is silently skipped. -/
theorem compareDocumentByType_missing_field_compared (documentType : String)
    (hdt : documentType ∈ registeredTypes) (ocrData kycData : FieldMap)
    (f : FieldName) (hf : f ∈ fieldsFor documentType)
    (hmiss : lookupField ocrData f = none) :
    compareDocumentByType documentType ocrData kycData =
      .ok (runPair (mkPair (fieldsFor documentType)) ocrData kycData) ∧
    (comparisonResults (sanitizeFields (fieldsFor documentType) ocrData)
        (sanitizeFields (fieldsFor documentType) kycData)).map
      (fun r => r.field) = fieldsFor documentType ∧
    ({ field := f
       isMatch := compareStrings ""
         (fieldValue (sanitizeFields (fieldsFor documentType) kycData) f)
       ocrValue := ""
       kycValue :=
         fieldValue (sanitizeFields (fieldsFor documentType) kycData) f } :
      FieldComparisonResult) ∈
      comparisonResults (sanitizeFields (fieldsFor documentType) ocrData)
        (sanitizeFields (fieldsFor documentType) kycData) := by
  have hov : fieldValue (sanitizeFields (fieldsFor documentType) ocrData) f
      = "" := by
    unfold fieldValue
    rw [lookupField_sanitizeFields _ _ _ hf, hmiss]
    rfl
  refine ⟨?_, ?_, ?_⟩
  · unfold compareDocumentByType compareDocumentByTypeWith
    rw [selectPair_spec documentType hdt]
  · rw [comparisonResults_fields, keysOf_sanitizeFields]
  · rw [comparisonResults_eq_map]
    apply List.mem_map.mpr
    refine ⟨f, ?_, ?_⟩
    · rw [keysOf_sanitizeFields]
      exact hf
    · unfold comparisonEntry
      rw [hov]

/-- Claim C4, witness at a concrete input: the `name` field is absent from
the concrete OCR map but still appears in the passport comparison, with
`""` as its OCR value. -/
theorem compareDocumentByType_missing_field_compared_witness :
    ({ field := "name"
       isMatch := compareStrings ""
         (fieldValue (sanitizeFields (fieldsFor "passport") demoKycData) "name")
       ocrValue := ""
       kycValue :=
         fieldValue (sanitizeFields (fieldsFor "passport") demoKycData) "name" } :
      FieldComparisonResult) ∈
      comparisonResults (sanitizeFields (fieldsFor "passport") demoOcrMissingName)
        (sanitizeFields (fieldsFor "passport") demoKycData) :=
  (compareDocumentByType_missing_field_compared "passport" (by decide)
    demoOcrMissingName demoKycData "name" (by decide) (by decide)).2.2

/-- Claim C5: for every sanitizer assignment and every dispatch-resolved
document type, the mismatch map of the returned result contains exactly
the fields whose per-field comparison failed — an entry is present for a
field precisely when that field is compared and its comparator result is
`false`, and the entry carries both the OCR value and the submitted value
(plus the reason string); fields whose comparison succeeded have no
entry. -/
theorem compareDocumentByType_mismatches_exact (S : Sanitizers)
    (documentType : String) (ocrData kycData : FieldMap) (P : SanitizerPair)
    (h : selectPair S documentType = some P) :
    compareDocumentByTypeWith S documentType ocrData kycData =
      .ok (runPair P ocrData kycData) ∧
    ∀ f m, (f, m) ∈ (runPair P ocrData kycData).mismatchResults ↔
      f ∈ keysOf (P.sanitizeOcr ocrData) ∧
      compareStrings (fieldValue (P.sanitizeOcr ocrData) f)
        (fieldValue (P.sanitizeKyc kycData) f) = false ∧
      m = { ocrValue := fieldValue (P.sanitizeOcr ocrData) f
            kycValue := fieldValue (P.sanitizeKyc kycData) f
            reason := mismatchReason (fieldValue (P.sanitizeOcr ocrData) f)
              (fieldValue (P.sanitizeKyc kycData) f) } := by
  constructor
  · unfold compareDocumentByTypeWith
    rw [h]
  · intro f m
    exact mem_mismatchResultsOf (P.sanitizeOcr ocrData)
      (P.sanitizeKyc kycData) f m

/-- Claim C5, witness at a concrete input: the mismatch-map
characterization instantiated for the `idNumber` field of a concrete
voter-id comparison. -/
theorem compareDocumentByType_mismatches_exact_witness :
    ("idNumber",
      ({ ocrValue := fieldValue (specSanitizers.voterId.sanitizeOcr
            demoOcrData) "idNumber"
         kycValue := fieldValue (specSanitizers.voterId.sanitizeKyc
            demoKycData) "idNumber"
         reason := mismatchReason
            (fieldValue (specSanitizers.voterId.sanitizeOcr demoOcrData)
              "idNumber")
            (fieldValue (specSanitizers.voterId.sanitizeKyc demoKycData)
              "idNumber") } : MismatchDetail)) ∈
        (runPair specSanitizers.voterId demoOcrData demoKycData).mismatchResults ↔
      "idNumber" ∈ keysOf (specSanitizers.voterId.sanitizeOcr demoOcrData) ∧
      compareStrings (fieldValue (specSanitizers.voterId.sanitizeOcr demoOcrData)
          "idNumber")
        (fieldValue (specSanitizers.voterId.sanitizeKyc demoKycData)
          "idNumber") = false ∧
      ({ ocrValue := fieldValue (specSanitizers.voterId.sanitizeOcr
            demoOcrData) "idNumber"
         kycValue := fieldValue (specSanitizers.voterId.sanitizeKyc
            demoKycData) "idNumber"
         reason := mismatchReason
            (fieldValue (specSanitizers.voterId.sanitizeOcr demoOcrData)
              "idNumber")
            (fieldValue (specSanitizers.voterId.sanitizeKyc demoKycData)
              "idNumber") } : MismatchDetail) =
        { ocrValue := fieldValue (specSanitizers.voterId.sanitizeOcr
            demoOcrData) "idNumber"
          kycValue := fieldValue (specSanitizers.voterId.sanitizeKyc
            demoKycData) "idNumber"
          reason := mismatchReason
            (fieldValue (specSanitizers.voterId.sanitizeOcr demoOcrData)
              "idNumber")
            (fieldValue (specSanitizers.voterId.sanitizeKyc demoKycData)
              "idNumber") } :=
  (compareDocumentByType_mismatches_exact specSanitizers "voter-id"
    demoOcrData demoKycData specSanitizers.voterId rfl).2 "idNumber"
    { ocrValue := fieldValue (specSanitizers.voterId.sanitizeOcr
        demoOcrData) "idNumber"
      kycValue := fieldValue (specSanitizers.voterId.sanitizeKyc
        demoKycData) "idNumber"
      reason := mismatchReason
        (fieldValue (specSanitizers.voterId.sanitizeOcr demoOcrData)
          "idNumber")
        (fieldValue (specSanitizers.voterId.sanitizeKyc demoKycData)
          "idNumber") }

/-- Claim C6: for every document-type string whose lower-casing is not one
of the five registered variants, `compareDocumentByType` fails with the
`Unsupported document type` error; the conclusion holds for every
sanitizer assignment `S` and the error value does not depend on `S` or on
either input map, so no sanitizer is invoked and the inputs are
untouched (all embedded functions are pure). -/
theorem compareDocumentByType_unsupported (documentType : String)
    (h : lowerString documentType ∉ registeredTypes) :
    ∀ (S : Sanitizers) (ocrData kycData : FieldMap),
      compareDocumentByTypeWith S documentType ocrData kycData =
        .error ("Unsupported document type: " ++ documentType) := by
  intro S ocrData kycData
  have hm : ∀ s ∈ registeredTypes, ¬ (lowerString documentType = s) :=
    fun s hs he => h (he ▸ hs)
  have h1 := hm "aadhaar-card" (by decide)
  have h2 := hm "passport" (by decide)
  have h3 := hm "pan-card" (by decide)
  have h4 := hm "dl" (by decide)
  have h5 := hm "voter-id" (by decide)
  unfold compareDocumentByTypeWith selectPair
  simp [h1, h2, h3, h4, h5]

/-- Claim C6, witness at a concrete input: an unregistered type string. -/
theorem compareDocumentByType_unsupported_witness :
    compareDocumentByTypeWith specSanitizers "ration-card" demoOcrData
      demoKycData = .error ("Unsupported document type: " ++ "ration-card") :=
  compareDocumentByType_unsupported "ration-card" (by decide) specSanitizers
    demoOcrData demoKycData

/-- Claim C7: the fuzzy comparator is symmetric on every pair of strings,
matches empty-vs-empty, and rejects empty-vs-nonempty on either side. -/
theorem compareStrings_symm_and_empty :
    (∀ a b, compareStrings a b = compareStrings b a) ∧
    compareStrings "" "" = true ∧
    (∀ a, a ≠ "" → compareStrings "" a = false ∧ compareStrings a "" = false) := by
  refine ⟨?_, rfl, ?_⟩
  · intro a b
    by_cases hab : a = b
    · subst hab
      rfl
    · have hba : ¬ (b = a) := fun h => hab h.symm
      unfold compareStrings
      rw [if_neg hab, if_neg hba]
      by_cases hl : a.length < 2 ∨ b.length < 2
      · rw [if_pos hl, if_pos (Or.symm hl)]
      · have hl' : ¬ (b.length < 2 ∨ a.length < 2) := fun h => hl (Or.symm h)
        rw [if_neg hl, if_neg hl']
        exact congrArg (fun q => decide (similarityThreshold ≤ q))
          (diceCoefficient_comm a b)
  · intro a ha
    have h1 : ¬ (("" : String) = a) := fun h => ha h.symm
    have h2 : ("" : String).length < 2 ∨ a.length < 2 := Or.inl (by decide)
    have h2' : a.length < 2 ∨ ("" : String).length < 2 := Or.inr (by decide)
    constructor
    · unfold compareStrings
      rw [if_neg h1, if_pos h2]
    · unfold compareStrings
      rw [if_neg ha, if_pos h2']

/-- Claim C7, witness: the empty-vs-nonempty clauses applied at a concrete
nonempty string. -/
theorem compareStrings_symm_and_empty_witness :
    compareStrings "" "kyc" = false ∧ compareStrings "kyc" "" = false :=
  compareStrings_symm_and_empty.2.2 "kyc" (by decide)

/-- Claim C8: every successful extraction comes from a resolved response
with the nested OCR section present, and the returned field map is that
section with the `validState` metadata key removed: `validState` is absent
from the result and every other field is returned unchanged. -/
theorem extractDataFromDocument_strips_validState (r : HttpResult)
    (m : FieldMap) (h : extractDataFromDocument r = .ok m) :
    lookupField m "validState" = none ∧
    ∃ body payload extractedData,
      r = .success (some body) ∧
      body.data = some payload ∧
      payload.ocr = some extractedData ∧
      m = removeValidState extractedData ∧
      ∀ f, f ≠ "validState" → lookupField m f = lookupField extractedData f := by
  have hA : extractDataAttempt r = .ok m := by
    unfold extractDataFromDocument at h
    cases hE : extractDataAttempt r with
    | error e => rw [hE] at h; cases h
    | ok d =>
      rw [hE] at h
      injection h with h
      rw [← h]
  rcases r with msg | body
  · cases hA
  · rcases body with _ | body
    · cases hA
    · rcases body with ⟨bstatus, bmessage, bdata⟩
      simp only [extractDataAttempt] at hA
      by_cases hst : bstatus ≠ "ok"
      · rw [if_pos hst] at hA
        cases hA
      · rw [if_neg hst] at hA
        rcases bdata with _ | payload
        · cases hA
        · rcases payload with ⟨ocrSection⟩
          rcases ocrSection with _ | extractedData
          · cases hA
          · injection hA with hA
            subst hA
            refine ⟨lookupField_removeValidState_self extractedData,
              ⟨bstatus, bmessage, some ⟨some extractedData⟩⟩,
              ⟨some extractedData⟩, extractedData, ?_, ?_, rfl, rfl, ?_⟩
            · rfl
            · rfl
            · intro f hf
              exact lookupField_removeValidState_ne extractedData f hf

/-- Claim C8, witness at a concrete input: a successful extraction whose
raw section carries `validState`; the returned map has no `validState`
binding. -/
theorem extractDataFromDocument_strips_validState_witness :
    lookupField (removeValidState demoExtracted) "validState" = none :=
  (extractDataFromDocument_strips_validState
    (.success (some { status := "ok", message := none
                      data := some { ocr := some demoExtracted } }))
    (removeValidState demoExtracted) rfl).1

/-- Claim C9: the submission-owner read `getKycById` never draws on the
`Moderation` collection: its result is identical for any two database
states that agree on the `Kyc` collection, whatever moderation records
exist — so no OCR comparison verdict, mismatch field, face-match or
liveliness data can appear in its returned object, whose field list
(`KycByIdView`) carries the derived `kycStatus` and submission data
only. -/
theorem getKycById_ignores_moderation (kycs : List Kyc)
    (moderations moderations' : List Moderation) (kycId : String) (req : Req) :
    getKycById { kycs := kycs, moderations := moderations } kycId req =
      getKycById { kycs := kycs, moderations := moderations' } kycId req :=rfl

/-- Claim C10: document-type dispatch is case-insensitive — the argument
is lower-cased before matching, so any string whose lower-casing is a
registered variant behaves exactly like the lowercase variant string and
selects the corresponding sanitizer pair instead of failing with the
unsupported-type error, for every sanitizer assignment. -/
theorem compareDocumentByType_case_insensitive (documentType : String)
    (h : lowerString documentType ∈ registeredTypes) (S : Sanitizers)
    (ocrData kycData : FieldMap) :
    selectPair S documentType = selectPair S (lowerString documentType) ∧
    ∃ P, selectPair S documentType = some P ∧
      compareDocumentByTypeWith S documentType ocrData kycData =
        .ok (runPair P ocrData kycData) := by
  simp only [registeredTypes, List.mem_cons, List.not_mem_nil, or_false] at h
  rcases h with h | h | h | h | h
  · refine ⟨?_, S.aadhaar, ?_, ?_⟩
    · simp +decide [selectPair, h]
    · simp [selectPair, h]
    · simp [compareDocumentByTypeWith, selectPair, h]
  · refine ⟨?_, S.passport, ?_, ?_⟩
    · simp +decide [selectPair, h]
    · simp [selectPair, h]
    · simp [compareDocumentByTypeWith, selectPair, h]
  · refine ⟨?_, S.panCard, ?_, ?_⟩
    · simp +decide [selectPair, h]
    · simp [selectPair, h]
    · simp [compareDocumentByTypeWith, selectPair, h]
  · refine ⟨?_, S.dl, ?_, ?_⟩
    · simp +decide [selectPair, h]
    · simp [selectPair, h]
    · simp [compareDocumentByTypeWith, selectPair, h]
  · refine ⟨?_, S.voterId, ?_, ?_⟩
    · simp +decide [selectPair, h]
    · simp [selectPair, h]
    · simp [compareDocumentByTypeWith, selectPair, h]

/-- Claim C10, witness at a concrete input: `"PAN-CARD"` is refused by the
submission validation schema, yet the dispatch lower-cases it and selects
a sanitizer pair rather than failing. -/
theorem compareDocumentByType_case_insensitive_witness :
    kycSchemaAllowsIdType "PAN-CARD" = false ∧
    ∃ P, selectPair specSanitizers "PAN-CARD" = some P ∧
      compareDocumentByTypeWith specSanitizers "PAN-CARD" demoOcrData
        demoKycData = .ok (runPair P demoOcrData demoKycData) :=
  ⟨by decide,
    (compareDocumentByType_case_insensitive "PAN-CARD" (by decide)
      specSanitizers demoOcrData demoKycData).2⟩
